import Mathlib

/-!
Verification development for the cardano-swap repository.

The definitions below are shallow embeddings of the protocol logic found in
the repository sources:

* `contract.ts` — the Cardano escrow validator (plu-ts),
* `lopContract` (in `lockInAuthVault.ts`) — the AuthVault validator,
* `EscrowDst.sol` — the EVM destination escrow,
* `secretManager.js` — secret generation and hashlock validation,
* `createSwapEscrow.ts` — the Cardano escrow creation script,
* `use-websocket` hook — the browser side of the secret relay channel.

Hash functions (sha2_256, keccak256) are passed as explicit parameters so
that every definition stays executable; collision resistance becomes an
injectivity hypothesis where a theorem needs it.
-/

/-- Byte strings are modelled as lists of naturals (one per byte). -/
abbrev Bytes := List Nat

/-! ## Cardano escrow contract (contracts/cardano/src/contract.ts) -/

/-- Datum of the Cardano escrow, from EscrowDatum in MyDatum (fields as used
by contract.ts and built by the creation scripts). Deadlines are POSIX
milliseconds. -/
structure EscrowDatum where
  hashlock : Bytes
  maker_pkh : Bytes
  resolver_pkh : Bytes
  resolver_unlock_deadline : Nat
  resolver_cancel_deadline : Nat
  public_cancel_deadline : Nat
  safety_deposit : Nat
deriving Repr, DecidableEq

/-- Redeemer of the Cardano escrow, from MyRedeemer/index.ts: Withdraw
carries the secret, Cancel carries nothing. -/
inductive EscrowRedeemer where
  | Withdraw (secret : Bytes)
  | Cancel
deriving Repr, DecidableEq

/-- Part of the script context read by the escrow validator: the signatory
list and the validity interval bounds. A bound is `some n` when the on-chain
bound is PFinite with value n (seconds), and `none` for the infinite bounds,
which the validator maps to false in both deadline checks. -/
structure EscrowTx where
  signatories : List Bytes
  interval_from : Option Nat
  interval_to : Option Nat
deriving Repr, DecidableEq

/-- Embeds isSecretValid from contract.ts: psha2_256(secret) == datum.hashlock. -/
def isSecretValid (sha2_256 : Bytes → Bytes) (datum : EscrowDatum) (secret : Bytes) : Bool :=
  sha2_256 secret == datum.hashlock

/-- Embeds signedByMaker: tx.signatories.some(datum.maker_pkh.eq). -/
def signedByMaker (datum : EscrowDatum) (tx : EscrowTx) : Bool :=
  tx.signatories.any (fun s => s == datum.maker_pkh)

/-- Embeds signedByResolver: tx.signatories.some(datum.resolver_pkh.eq). -/
def signedByResolver (datum : EscrowDatum) (tx : EscrowTx) : Bool :=
  tx.signatories.any (fun s => s == datum.resolver_pkh)

/-- Embeds beforeResolverDeadline: on a finite upper bound,
upperInterval <= datum.resolver_unlock_deadline / 1000; otherwise false. -/
def beforeResolverDeadline (datum : EscrowDatum) (tx : EscrowTx) : Bool :=
  match tx.interval_to with
  | some upperInterval => upperInterval ≤ datum.resolver_unlock_deadline / 1000
  | none => false

/-- Embeds afterResolverDeadline: on a finite lower bound,
datum.resolver_unlock_deadline / 1000 < lowerInterval; otherwise false. -/
def afterResolverDeadline (datum : EscrowDatum) (tx : EscrowTx) : Bool :=
  match tx.interval_from with
  | some lowerInterval => datum.resolver_unlock_deadline / 1000 < lowerInterval
  | none => false

/-- Embeds timeAndSigValidation: before the deadline the resolver must sign,
after the deadline anyone may withdraw. -/
def timeAndSigValidation (datum : EscrowDatum) (tx : EscrowTx) : Bool :=
  (beforeResolverDeadline datum tx && signedByResolver datum tx)
    || afterResolverDeadline datum tx

/-- Embeds the escrow validator of contract.ts: Withdraw requires the secret
hash to match plus timeAndSigValidation; Cancel requires only the resolver
signature. Returns true when the passert succeeds. -/
def escrow (sha2_256 : Bytes → Bytes) (datum : EscrowDatum)
    (redeemer : EscrowRedeemer) (tx : EscrowTx) : Bool :=
  match redeemer with
  | .Withdraw secret =>
      isSecretValid sha2_256 datum secret && timeAndSigValidation datum tx
  | .Cancel => signedByResolver datum tx

/-! ## AuthVault validator (contracts/cardano/src/lopContract, shipped inside
lockInAuthVault.ts) -/

/-- Datum of the AuthVault, from AuthVaultDatum. -/
structure AuthVaultDatum where
  maker_pkh : Bytes
  expected_escrow_script_hash : Bytes
  maker_input_value : Nat
deriving Repr, DecidableEq

/-- CreateEscrow redeemer of the AuthVault, from AuthVaultRedeemer. -/
structure CreateEscrow where
  resolver_pkh : Bytes
  safety_deposit_amount : Nat
deriving Repr, DecidableEq

/-- Payment credential of a transaction output. -/
inductive TxCredential where
  | scriptCredential (valHash : Bytes)
  | pubKeyCredential (pkh : Bytes)
deriving Repr, DecidableEq

/-- Transaction output as read by the AuthVault validator: the address
credential and the lovelace amount of its value. -/
structure TxOut where
  credential : TxCredential
  lovelaces : Nat
deriving Repr, DecidableEq

/-- Script-context slice seen by the AuthVault validator. The field
spentInputValue records the lovelace actually held by the AuthVault UTxO
being spent; it is available in the real PScriptContext through tx.inputs
but the validator never reads it, which the theorems below make explicit. -/
structure AuthVaultTx where
  signatories : List Bytes
  outputs : List TxOut
  spentInputValue : Nat
deriving Repr, DecidableEq

/-- Embeds the isEscrowScript check inside hasValidEscrowOutput: the output
credential is a script credential whose hash equals
datum.expected_escrow_script_hash. -/
def isEscrowScript (datum : AuthVaultDatum) (output : TxOut) : Bool :=
  match output.credential with
  | .scriptCredential valHash => valHash == datum.expected_escrow_script_hash
  | .pubKeyCredential _ => false

/-- Embeds expectedEscrowValue: inputValue.add(safety_deposit_amount), where
inputValue is datum.maker_input_value (taken from the datum, not from the
spent UTxO). -/
def expectedEscrowValue (datum : AuthVaultDatum) (redeemer : CreateEscrow) : Nat :=
  datum.maker_input_value + redeemer.safety_deposit_amount

/-- Embeds hasValidEscrowOutput: some output goes to the expected escrow
script and carries exactly expectedEscrowValue lovelaces. -/
def hasValidEscrowOutput (datum : AuthVaultDatum) (redeemer : CreateEscrow)
    (tx : AuthVaultTx) : Bool :=
  tx.outputs.any (fun output =>
    isEscrowScript datum output
      && output.lovelaces == expectedEscrowValue datum redeemer)

/-- Embeds the authVaultValidator onCreateEscrow branch: the resolver named
in the redeemer must sign, and a valid escrow output must exist. -/
def authVaultValidator (datum : AuthVaultDatum) (redeemer : CreateEscrow)
    (tx : AuthVaultTx) : Bool :=
  tx.signatories.any (fun s => s == redeemer.resolver_pkh)
    && hasValidEscrowOutput datum redeemer tx

/-! ## EVM destination escrow (contracts/evm/contracts/EscrowDst.sol) -/

/-- Immutables of the destination escrow. The three timelock fields are the
stages read by EscrowDst (TimelocksLib itself is not under the inspected
sources; the stage values are modelled as plain absolute timestamps). -/
structure Immutables where
  orderHash : Bytes
  hashlock : Bytes
  maker : Nat
  taker : Nat
  token : Nat
  amount : Nat
  safetyDeposit : Nat
  dstWithdrawal : Nat
  dstPublicWithdrawal : Nat
  dstCancellation : Nat
deriving Repr, DecidableEq

/-- Revert reasons used by the EscrowDst entry points. -/
inductive EvmError where
  | InvalidCaller
  | InvalidSecret
  | InvalidTime
  | InvalidImmutables
  | AccessDenied
deriving Repr, DecidableEq

/-- A value transfer performed by the contract: token 0 stands for the
native asset (used for the safety deposit via ethTransfer). -/
structure Transfer where
  token : Nat
  recipient : Nat
  amount : Nat
deriving Repr, DecidableEq

/-- Call context of an EVM entry point. immutablesValid models the
onlyValidImmutables modifier (modelled from the spec: the supplied
immutables must match the ones the escrow address was derived from) and
hasAccessToken models the onlyAccessTokenHolder modifier (modelled from the
spec: the caller holds a recognized can-relay credential). -/
structure EvmCall where
  sender : Nat
  timestamp : Nat
  hasAccessToken : Bool
  immutablesValid : Bool
deriving Repr, DecidableEq

namespace EscrowDst

/-- Embeds the internal withdrawal logic of EscrowDst: transfer the token
amount to the maker, then return the safety deposit to the taker. -/
def _withdraw (imm : Immutables) : List Transfer :=
  [⟨imm.token, imm.maker, imm.amount⟩, ⟨0, imm.taker, imm.safetyDeposit⟩]

/-- Embeds EscrowDst.withdraw exactly as written in the source: the secret
parameter is commented out and unused, the two timelock modifiers are
commented out, and the body only checks that the caller is the taker before
performing the withdrawal transfers. -/
def withdraw (call : EvmCall) (secret : Bytes) (imm : Immutables) :
    Except EvmError (List Transfer) :=
  if !call.immutablesValid then .error .InvalidImmutables
  else if call.sender ≠ imm.taker then .error .InvalidCaller
  else .ok (_withdraw imm)

/-- Embeds EscrowDst.publicWithdraw: caller must hold the access token,
immutables must be valid, hash of the secret must equal the hashlock
(onlyValidSecret, modelled from the spec with the hash function passed in),
and the time must be in the public window, left-closed at
DstPublicWithdrawal and right-open at DstCancellation as the spec describes
the modelled onlyAfter and onlyBefore modifiers. -/
def publicWithdraw (evmHash : Bytes → Bytes) (call : EvmCall) (secret : Bytes)
    (imm : Immutables) : Except EvmError (List Transfer) :=
  if !call.hasAccessToken then .error .AccessDenied
  else if !call.immutablesValid then .error .InvalidImmutables
  else if evmHash secret ≠ imm.hashlock then .error .InvalidSecret
  else if call.timestamp < imm.dstPublicWithdrawal then .error .InvalidTime
  else if imm.dstCancellation ≤ call.timestamp then .error .InvalidTime
  else .ok (_withdraw imm)

/-- Embeds EscrowDst.cancel: only the taker, with valid immutables, at or
after DstCancellation; tokens and safety deposit both return to the taker. -/
def cancel (call : EvmCall) (imm : Immutables) :
    Except EvmError (List Transfer) :=
  if call.sender ≠ imm.taker then .error .InvalidCaller
  else if !call.immutablesValid then .error .InvalidImmutables
  else if call.timestamp < imm.dstCancellation then .error .InvalidTime
  else .ok [⟨imm.token, imm.taker, imm.amount⟩, ⟨0, imm.taker, imm.safetyDeposit⟩]

end EscrowDst

/-! ## Secret manager (backend/utils/secretManager.js), byte level -/

namespace secretManager

/-- Embeds createSecretHash: rejects an empty secret, otherwise returns the
SHA-256 digest of the secret bytes. -/
def createSecretHash (sha256 : Bytes → Bytes) (secret : Bytes) :
    Except String Bytes :=
  if secret = [] then .error "Secret must be a non-empty string"
  else .ok (sha256 secret)

/-- Embeds createHashlock, an alias for createSecretHash. -/
def createHashlock (sha256 : Bytes → Bytes) (secret : Bytes) :
    Except String Bytes :=
  createSecretHash sha256 secret

/-- Embeds validateSecretAgainstHashlock: false when either argument is
empty, false when hashing raises, otherwise digest equality. -/
def validateSecretAgainstHashlock (sha256 : Bytes → Bytes)
    (secret hashlock : Bytes) : Bool :=
  if secret = [] || hashlock = [] then false
  else
    match createSecretHash sha256 secret with
    | .ok computedHash => computedHash == hashlock
    | .error _ => false

end secretManager

/-! ## Cardano escrow creation (contracts/cardano/src/app/createSwapEscrow.ts) -/

namespace createSwapEscrow

/-- Name of the digest algorithm the script passes to createHash when it
derives the hashlock (line 95 of createSwapEscrow.ts). -/
def hashAlgorithm : String := "keccak256"

/-- Embeds generateRandomSecret of createSwapEscrow.ts: the secret is the
string atomic-swap-(timestamp)-(first 16 hex characters of the 32 random
bytes); randomHex is the 64 character hex encoding of randomBytes(32). -/
def generateRandomSecret (timestamp : Nat) (randomHex : String) : String :=
  "atomic-swap-" ++ toString timestamp ++ "-" ++ (randomHex.take 16)

/-- Configuration record for the creation scripts: amounts in lovelace and
the three deadline offsets in hours. -/
structure SwapConfig where
  escrowAmount : Nat
  safetyDeposit : Nat
  deadlineOffset : Nat
  cancelOffset : Nat
  publicOffset : Nat
deriving Repr, DecidableEq

/-- Default configuration of createSwapEscrow.ts: 10 ADA escrow, 5 ADA
safety deposit, offsets of 1, 2 and 3 hours. -/
def defaultConfig : SwapConfig :=
  ⟨10000000, 5000000, 1, 2, 3⟩

/-- Embeds the deadline calculation shared by createSwapEscrow.ts and
createEscrowFromAuthVault: each deadline is now plus the offset in hours
times 3600000 milliseconds. -/
def computeDeadlines (now : Nat) (cfg : SwapConfig) : Nat × Nat × Nat :=
  (now + cfg.deadlineOffset * 3600000,
   now + cfg.cancelOffset * 3600000,
   now + cfg.publicOffset * 3600000)

/-- Embeds the escrow datum built by createSwapEscrow.ts: the hashlock is
the keccak256 digest of the secret, the deadlines come from
computeDeadlines, and no check whatsoever is made on their ordering. -/
def buildEscrowDatum (keccak256 : Bytes → Bytes) (secretBytes : Bytes)
    (makerPkh resolverPkh : Bytes) (now : Nat) (cfg : SwapConfig) : EscrowDatum :=
  { hashlock := keccak256 secretBytes
    maker_pkh := makerPkh
    resolver_pkh := resolverPkh
    resolver_unlock_deadline := (computeDeadlines now cfg).1
    resolver_cancel_deadline := (computeDeadlines now cfg).2.1
    public_cancel_deadline := (computeDeadlines now cfg).2.2
    safety_deposit := cfg.safetyDeposit }

/-- Embeds the failure structure of createSwapEscrow: the only rejection
before the datum is produced is funding insufficiency (findUtxoWithFunds
over escrowAmount + safetyDeposit + a 5 ADA fee buffer); every deadline
configuration is accepted. -/
def createSwapEscrowRun (keccak256 : Bytes → Bytes) (secretBytes : Bytes)
    (makerPkh resolverPkh : Bytes) (now availableFunds : Nat)
    (cfg : SwapConfig) : Except String EscrowDatum :=
  if availableFunds < cfg.escrowAmount + cfg.safetyDeposit + 5000000 then
    .error "InsufficientFundsError"
  else
    .ok (buildEscrowDatum keccak256 secretBytes makerPkh resolverPkh now cfg)

end createSwapEscrow

/-! ## Browser secret relay client (frontend use-websocket hook) -/

namespace useWebSocket

/-- Role passed to the useWebSocket hook. -/
inductive Role where
  | maker
  | resolver
deriving Repr, DecidableEq

/-- Message shape exchanged over the websocket. -/
structure WSMessage where
  type : String
  orderId : String
  secret : Option String
deriving Repr, DecidableEq

/-- Client state of the hook together with the environment facts the claim
quantifies over: storedSecret is the localStorage entry the maker reads,
receivedSecret is the ref the resolver writes, and the two funding flags
record whether the source and destination escrows are funded. The handler
has no access to the funding flags, which is exactly what the theorems
establish. -/
structure ClientState where
  role : Role
  storedSecret : Option String
  receivedSecret : Option String
  srcEscrowFunded : Bool
  dstEscrowFunded : Bool
deriving Repr, DecidableEq

/-- Embeds the onmessage handler of useWebSocket: on requestSecret a maker
with a stored secret immediately sends it back; on secret a resolver stores
the received value; every other message is ignored. Returns the new state
and the message sent in response, if any. -/
def onmessage (st : ClientState) (data : WSMessage) :
    ClientState × Option WSMessage :=
  if data.type = "requestSecret" then
    match st.role, st.storedSecret with
    | .maker, some storedSecret =>
        (st, some ⟨"secret", data.orderId, some storedSecret⟩)
    | .maker, none => (st, none)
    | .resolver, _ => (st, none)
  else if data.type = "secret" then
    match st.role with
    | .resolver => ({ st with receivedSecret := data.secret }, none)
    | .maker => (st, none)
  else (st, none)

end useWebSocket

/-! ## Theorems settling the claims -/

/-- Claim C1. The claim states that every Withdraw succeeds only when the
presented secret hashes to the stored hashlock. The EVM destination escrow
violates this: EscrowDst.withdraw has its secret parameter commented out and
its timelock modifiers disabled, so the taker can withdraw with any secret
whatsoever; the withdrawal transfers fire regardless of the secret. The
first conjunct shows the result is independent of the secret; the second
evaluates the entry point at a concrete escrow whose hashlock is [9] with
the unrelated secret [0] and shows the transfers happen anyway. -/
theorem evm_withdraw_ignores_secret :
    (∀ (s1 s2 : Bytes) (call : EvmCall) (imm : Immutables),
      EscrowDst.withdraw call s1 imm = EscrowDst.withdraw call s2 imm) ∧
    EscrowDst.withdraw ⟨7, 0, false, true⟩ [0] ⟨[1], [9], 3, 7, 5, 100, 10, 0, 0, 0⟩
      = .ok [⟨5, 3, 100⟩, ⟨0, 7, 10⟩] := by
  refine ⟨?_, rfl⟩
  intro s1 s2 call imm
  rfl

/-- Claim C2, counterexample. A requestSecret message processed by the maker
client while both funding flags are false is still answered with the stored
secret: the no-early-disclosure property fails on the relay code in the
repository. -/
theorem maker_answers_request_before_funding :
    useWebSocket.onmessage ⟨.maker, some "s3", none, false, false⟩
        ⟨"requestSecret", "o1", none⟩
      = (⟨.maker, some "s3", none, false, false⟩,
         some ⟨"secret", "o1", some "s3"⟩) := by
  rfl

/-- Claim C2, amended. The maker client answers every requestSecret message
with the stored secret whenever one is stored; its response is completely
independent of whether either escrow is funded, since the handler never
reads the funding state. The no-early-disclosure invariant is therefore not
enforced by the relay code in the repository. -/
theorem relay_response_ignores_funding
    (r : useWebSocket.Role) (s v : Option String) (f1 f2 g1 g2 : Bool)
    (m : useWebSocket.WSMessage) :
    (useWebSocket.onmessage ⟨r, s, v, f1, f2⟩ m).2
      = (useWebSocket.onmessage ⟨r, s, v, g1, g2⟩ m).2 ∧
    ∀ (sec oid : String),
      (useWebSocket.onmessage ⟨.maker, some sec, v, f1, f2⟩
          ⟨"requestSecret", oid, none⟩).2
        = some ⟨"secret", oid, some sec⟩ := by
  constructor
  · simp only [useWebSocket.onmessage]
    split_ifs <;> cases r <;> cases s <;> rfl
  · intro sec oid
    rfl

/-- Claim C3. The claim states Cancel succeeds only at or past
resolverCancelDeadline and that funds return to the depositor. The Cardano
escrow contradicts this (and the comment in MyRedeemer that Cancel is an
action to cancel the swap after a timeout): its Cancel branch checks only
the resolver signature, so a resolver-signed Cancel whose whole validity
interval lies before every deadline is accepted, and no output constraint
governs where the funds go. The first conjunct evaluates a Cancel at a
validity interval ending at time 20 against a datum whose cancel deadline is
7200000; the second shows Cancel acceptance equals the signature check
alone for every datum and transaction. -/
theorem cardano_cancel_ignores_deadline :
    escrow (fun b => b) ⟨[9], [1], [2], 3600000, 7200000, 10800000, 5000000⟩
        .Cancel ⟨[[2]], some 10, some 20⟩ = true ∧
    ∀ (sha2_256 : Bytes → Bytes) (datum : EscrowDatum) (tx : EscrowTx),
      escrow sha2_256 datum .Cancel tx = signedByResolver datum tx := by
  refine ⟨rfl, ?_⟩
  intro sha2_256 datum tx
  rfl

/-- Claim C4, counterexample. Deadline offsets 3, 2, 1 hours produce a
strictly decreasing cascade, yet createSwapEscrow still creates the escrow
datum: creation does not reject parameter sets that violate the strict
ordering. -/
theorem creation_accepts_decreasing_deadlines :
    createSwapEscrow.createSwapEscrowRun (fun b => b) [1] [2] [3] 0 100000000
        ⟨10000000, 5000000, 3, 2, 1⟩
      = .ok ⟨[1], [2], [3], 10800000, 7200000, 3600000, 5000000⟩ ∧
    ¬ (10800000 < 7200000 ∧ 7200000 < 3600000) := by
  exact ⟨rfl, by decide⟩

/-- Claim C4, amended. The deadlines are computed as now plus the offset in
hours, so whenever the configured offsets are strictly increasing — as the
default 1, 2, 3 configuration is — the created datum carries a strictly
increasing cascade; but no creation path validates the ordering, so
violating parameter sets are accepted rather than rejected. -/
theorem monotone_offsets_give_monotone_cascade
    (keccak256 : Bytes → Bytes) (s m r : Bytes) (now funds : Nat)
    (cfg : createSwapEscrow.SwapConfig)
    (h1 : cfg.deadlineOffset < cfg.cancelOffset)
    (h2 : cfg.cancelOffset < cfg.publicOffset)
    (d : EscrowDatum)
    (hok : createSwapEscrow.createSwapEscrowRun keccak256 s m r now funds cfg
      = .ok d) :
    d.resolver_unlock_deadline < d.resolver_cancel_deadline ∧
    d.resolver_cancel_deadline < d.public_cancel_deadline := by
  unfold createSwapEscrow.createSwapEscrowRun at hok
  split at hok
  · exact absurd hok (by simp)
  · have hd : d = createSwapEscrow.buildEscrowDatum keccak256 s m r now cfg := by
      cases hok
      rfl
    subst hd
    unfold createSwapEscrow.buildEscrowDatum createSwapEscrow.computeDeadlines
    dsimp only
    exact ⟨by omega, by omega⟩

/-- Witness for the amended Claim C4 theorem at the default configuration:
offsets 1 < 2 < 3 yield deadlines 3600000 < 7200000 < 10800000. -/
theorem monotone_offsets_witness :
    (3600000 : Nat) < 7200000 ∧ (7200000 : Nat) < 10800000 := by
  have h := monotone_offsets_give_monotone_cascade (fun b => b) [1] [2] [3] 0
    100000000 createSwapEscrow.defaultConfig (by decide) (by decide)
    ⟨[1], [2], [3], 3600000, 7200000, 10800000, 5000000⟩ rfl
  exact h

/-- Claim C5. The AuthVault release (CreateEscrow redeemer) succeeds exactly
when the resolver named in the redeemer signs the transaction and some
output pays exactly maker_input_value plus the redeemer safety deposit to
the script named by expected_escrow_script_hash; in particular, when the
safety deposit is positive, a transaction whose outputs either miss the
script or carry the committed amount only is rejected. -/
theorem authVault_release_exact_value
    (datum : AuthVaultDatum) (redeemer : CreateEscrow) (tx : AuthVaultTx) :
    (authVaultValidator datum redeemer tx = true ↔
      redeemer.resolver_pkh ∈ tx.signatories ∧
      ∃ o ∈ tx.outputs, isEscrowScript datum o = true ∧
        o.lovelaces = datum.maker_input_value + redeemer.safety_deposit_amount) ∧
    (0 < redeemer.safety_deposit_amount →
      (∀ o ∈ tx.outputs, isEscrowScript datum o = false ∨
        o.lovelaces = datum.maker_input_value) →
      authVaultValidator datum redeemer tx = false) := by
  have hchar : authVaultValidator datum redeemer tx = true ↔
      redeemer.resolver_pkh ∈ tx.signatories ∧
      ∃ o ∈ tx.outputs, isEscrowScript datum o = true ∧
        o.lovelaces = datum.maker_input_value + redeemer.safety_deposit_amount := by
    simp [authVaultValidator, hasValidEscrowOutput, expectedEscrowValue,
      List.any_eq_true]
  refine ⟨hchar, ?_⟩
  intro hdep hall
  rcases Bool.eq_false_or_eq_true (authVaultValidator datum redeemer tx) with h | h
  swap
  · exact h
  · obtain ⟨-, o, ho, hscript, hval⟩ := hchar.mp h
    rcases hall o ho with hbad | hbad
    · rw [hscript] at hbad
      exact absurd hbad (by simp)
    · omega

/-- Witness for the Claim C5 theorem: with a committed amount of 10 and a
redeemer safety deposit of 5, a resolver-signed transaction whose only
output pays 10 (the committed amount alone) to the expected escrow script
is rejected. -/
theorem authVault_release_exact_value_witness :
    authVaultValidator ⟨[1], [2], 10⟩ ⟨[3], 5⟩
      ⟨[[3]], [⟨.scriptCredential [2], 10⟩], 10⟩ = false := by
  exact (authVault_release_exact_value ⟨[1], [2], 10⟩ ⟨[3], 5⟩
    ⟨[[3]], [⟨.scriptCredential [2], 10⟩], 10⟩).2 (by decide) (by decide)

/-- Claim C6. The claim states PublicWithdraw routes the safety deposit to
the relaying third party. The code contradicts this (and the repository
process overview, which promises the deposit to the resolver who performs
the public service): publicWithdraw calls the shared internal withdrawal,
which always pays the safety deposit to the taker. Concretely, a third
party with address 42 relays a valid public withdrawal for an escrow whose
taker is 7: the asset (100 of token 5) goes to the maker 3, the deposit
(10) goes to the taker 7, and no transfer at all names the caller 42. -/
theorem publicWithdraw_deposit_to_taker :
    EscrowDst.publicWithdraw (fun b => b) ⟨42, 100, true, true⟩ [9]
        ⟨[1], [9], 3, 7, 5, 100, 10, 0, 50, 200⟩
      = .ok [⟨5, 3, 100⟩, ⟨0, 7, 10⟩] ∧
    ∀ t ∈ [Transfer.mk 5 3 100, Transfer.mk 0 7 10], t.recipient ≠ 42 := by
  exact ⟨rfl, by decide⟩

/-- Claim C7. For the secret manager, hashing a non-empty secret succeeds,
a secret always validates against its own hashlock, and under collision
resistance (injectivity of the digest, whose output is never empty) a
secret never validates against the hashlock of a different secret;
validation returns false on mismatch instead of raising. -/
theorem hashlock_binding (sha256 : Bytes → Bytes)
    (hinj : Function.Injective sha256) (hne : ∀ b, sha256 b ≠ [])
    (s1 s2 : Bytes) (h1 : s1 ≠ []) (h2 : s2 ≠ []) :
    secretManager.createHashlock sha256 s1 = .ok (sha256 s1) ∧
    secretManager.validateSecretAgainstHashlock sha256 s1 (sha256 s1) = true ∧
    (s1 ≠ s2 →
      secretManager.validateSecretAgainstHashlock sha256 s1 (sha256 s2) = false) := by
  refine ⟨?_, ?_, ?_⟩
  · simp [secretManager.createHashlock, secretManager.createSecretHash, h1]
  · simp [secretManager.validateSecretAgainstHashlock,
      secretManager.createSecretHash, h1, hne s1]
  · intro h12
    have hd : sha256 s1 ≠ sha256 s2 := fun h => h12 (hinj h)
    simp [secretManager.validateSecretAgainstHashlock,
      secretManager.createSecretHash, h1, hne s2, hd]

/-- Witness for the Claim C7 theorem with the injective digest that puts a
zero byte in front of its input: the secret [1] validates against its own
hashlock [0, 1] and fails against the hashlock [0, 2] of the secret [2]. -/
theorem hashlock_binding_witness :
    secretManager.validateSecretAgainstHashlock (fun b => 0 :: b) [1] [0, 1] = true ∧
    secretManager.validateSecretAgainstHashlock (fun b => 0 :: b) [1] [0, 2] = false := by
  have h := hashlock_binding (fun b => 0 :: b)
    (fun x y hxy => by simpa using hxy) (fun b => by simp)
    [1] [2] (by decide) (by decide)
  exact ⟨h.2.1, h.2.2 (by decide)⟩

set_option maxRecDepth 4000 in
/-- Claim C8. The claim states every escrow hashlock is the SHA-256 digest
of a 32-byte random secret. createSwapEscrow.ts contradicts this and its
own comments: the generated secret is a 42-character tagged string holding
only 8 random bytes, and the hashlock digest algorithm is keccak256, while
the on-chain validator checks psha2_256 — so an escrow created this way
rejects the Withdraw that presents its own generating secret whenever the
two digests disagree on it. -/
theorem keccak_hashlock_breaks_withdraw :
    (createSwapEscrow.generateRandomSecret 1754000000000
      "0123456789abcdef0123456789abcdef0123456789abcdef0123456789abcdef").length
      = 42 ∧
    createSwapEscrow.hashAlgorithm ≠ "sha256" ∧
    ∀ (sha2_256 keccak256 : Bytes → Bytes) (s m r : Bytes) (now : Nat)
      (cfg : createSwapEscrow.SwapConfig) (tx : EscrowTx),
      sha2_256 s ≠ keccak256 s →
      escrow sha2_256
        (createSwapEscrow.buildEscrowDatum keccak256 s m r now cfg)
        (.Withdraw s) tx = false := by
  refine ⟨by rfl, by decide, ?_⟩
  intro sha2_256 keccak256 s m r now cfg tx hneq
  have hb : (sha2_256 s == keccak256 s) = false := by
    simpa using hneq
  simp [escrow, isSecretValid, createSwapEscrow.buildEscrowDatum, hb]

/-- Witness for the Claim C8 theorem: two digests that disagree on the
secret [5] make the created escrow reject the Withdraw presenting [5]. -/
theorem keccak_hashlock_witness :
    escrow (fun _ => [0])
      (createSwapEscrow.buildEscrowDatum (fun _ => [1]) [5] [2] [3] 0
        createSwapEscrow.defaultConfig)
      (.Withdraw [5]) ⟨[], none, none⟩ = false := by
  exact keccak_hashlock_breaks_withdraw.2.2 (fun _ => [0]) (fun _ => [1])
    [5] [2] [3] 0 createSwapEscrow.defaultConfig ⟨[], none, none⟩ (by decide)

/-- Claim C9. At a clock reading exactly equal to the resolver deadline (in
the on-chain seconds unit), the exclusive window is still active: a
resolver-signed Withdraw with the valid secret is accepted at that instant,
a Withdraw without the resolver signature is rejected at that instant, and
the public path becomes available exactly at lower bounds strictly greater
than the deadline — the deadline is the left-closed right-open boundary of
the next window. -/
theorem exclusive_window_boundary (sha2_256 : Bytes → Bytes)
    (datum : EscrowDatum) (secret : Bytes) (sigs1 sigs2 : List Bytes)
    (hsec : sha2_256 secret = datum.hashlock)
    (hres : datum.resolver_pkh ∈ sigs1)
    (hnores : ∀ s ∈ sigs2, s ≠ datum.resolver_pkh) (lb : Nat) :
    escrow sha2_256 datum (.Withdraw secret)
      ⟨sigs1, some (datum.resolver_unlock_deadline / 1000),
        some (datum.resolver_unlock_deadline / 1000)⟩ = true ∧
    escrow sha2_256 datum (.Withdraw secret)
      ⟨sigs2, some (datum.resolver_unlock_deadline / 1000),
        some (datum.resolver_unlock_deadline / 1000)⟩ = false ∧
    (escrow sha2_256 datum (.Withdraw secret) ⟨sigs2, some lb, some lb⟩ = true ↔
      datum.resolver_unlock_deadline / 1000 < lb) := by
  have hany1 : sigs1.any (fun s => s == datum.resolver_pkh) = true := by
    rw [List.any_eq_true]
    exact ⟨datum.resolver_pkh, hres, by simp⟩
  have hany2 : sigs2.any (fun s => s == datum.resolver_pkh) = false := by
    rw [List.any_eq_false]
    intro s hs
    simp [hnores s hs]
  refine ⟨?_, ?_, ?_⟩
  · simp [escrow, isSecretValid, hsec, timeAndSigValidation, signedByResolver,
      beforeResolverDeadline, afterResolverDeadline, hany1]
  · simp [escrow, isSecretValid, hsec, timeAndSigValidation, signedByResolver,
      beforeResolverDeadline, afterResolverDeadline, hany2]
  · simp [escrow, isSecretValid, hsec, timeAndSigValidation, signedByResolver,
      beforeResolverDeadline, afterResolverDeadline, hany2]

/-- Witness for the Claim C9 theorem at a datum whose deadline is 30000
milliseconds (30 in the on-chain seconds unit): the resolver-signed
Withdraw at instant 30 is accepted, the unsigned one is rejected, and the
unsigned Withdraw at instant 77 is accepted because 30 < 77. -/
theorem exclusive_window_boundary_witness :
    escrow (fun b => b) ⟨[1, 2], [4], [5], 30000, 40000, 50000, 7⟩
      (.Withdraw [1, 2]) ⟨[[5]], some 30, some 30⟩ = true ∧
    escrow (fun b => b) ⟨[1, 2], [4], [5], 30000, 40000, 50000, 7⟩
      (.Withdraw [1, 2]) ⟨[[6]], some 30, some 30⟩ = false ∧
    (escrow (fun b => b) ⟨[1, 2], [4], [5], 30000, 40000, 50000, 7⟩
      (.Withdraw [1, 2]) ⟨[[6]], some 77, some 77⟩ = true ↔ 30000 / 1000 < 77) := by
  exact exclusive_window_boundary (fun b => b)
    ⟨[1, 2], [4], [5], 30000, 40000, 50000, 7⟩ [1, 2] [[5]] [[6]] rfl
    (by decide) (by decide) 77

/-- Claim C10. The AuthVault validator never reads the value actually held
in the vault UTxO being spent: its verdict is invariant under changing the
spent input value, and whenever it accepts, the escrow output value equals
the datum-declared maker_input_value plus the redeemer safety deposit — the
required output value is bound only to the datum-declared amount. -/
theorem authVault_ignores_spent_value
    (datum : AuthVaultDatum) (redeemer : CreateEscrow)
    (sigs : List Bytes) (outs : List TxOut) (v1 v2 : Nat) :
    authVaultValidator datum redeemer ⟨sigs, outs, v1⟩
      = authVaultValidator datum redeemer ⟨sigs, outs, v2⟩ ∧
    (authVaultValidator datum redeemer ⟨sigs, outs, v1⟩ = true →
      ∃ o ∈ outs,
        o.lovelaces = datum.maker_input_value + redeemer.safety_deposit_amount) := by
  refine ⟨rfl, ?_⟩
  intro h
  simp [authVaultValidator, hasValidEscrowOutput, expectedEscrowValue,
    List.any_eq_true] at h
  obtain ⟨-, o, ho, -, hv⟩ := h
  exact ⟨o, ho, hv⟩

/-- Witness for the Claim C10 theorem: the validator accepts a transaction
whose vault UTxO really holds 999 lovelace while the datum declares 10, and
the accepted escrow output indeed carries 10 + 5. -/
theorem authVault_ignores_spent_value_witness :
    ∃ o ∈ [TxOut.mk (.scriptCredential [2]) 15], o.lovelaces = 10 + 5 := by
  exact (authVault_ignores_spent_value ⟨[1], [2], 10⟩ ⟨[3], 5⟩ [[3]]
    [⟨.scriptCredential [2], 15⟩] 999 0).2 (by decide)
